import Mathlib

/-!
Shallow embedding of the cart/checkout/payment-verification core of the
`storefront` Django application (`storefront/views.py`, `storefront/models.py`).

Modelling conventions:
* Django `Decimal` money values are embedded as `ℚ` (exact decimal arithmetic,
  per the 2-decimal-place `DecimalField`); quantities are Python `int`s,
  embedded as `ℤ`.
* The session cart is a Python dict from the string `str(product.id)` to an
  integer quantity.  Every key the program writes is the canonical decimal
  string of a product id (`views.py` line 244: `key = str(product.id)`), and
  every read converts with `int(...)`/`str(...)`; the embedding therefore keys
  the cart by the product id itself, as `List (Nat × Int)` with the dict's
  insertion order and key uniqueness.
* The catalog (`Product.objects`) is a list of `Product` rows; a database
  query `filter(id__in=ids, is_active=True)` is a list filter.  Primary-key
  uniqueness of `Product.id` is an explicit hypothesis where a theorem needs it.
* External effects are explicit: the Razorpay client's availability
  (`_get_razorpay_client` returning a client or `None`) is a `Bool`, the
  remote order id returned by `client.order.create` is a `String` parameter,
  and the verdict of `client.utility.verify_payment_signature` (which raises
  `SignatureVerificationError` on a bad signature) is a `Bool` parameter.
  A call of `_send_order_notification` counts as one notification attempt
  (the helper itself no-ops when no notify address is configured).
* An uncaught Python exception (`ValueError` from `int(...)`, or the 404 of
  `get_object_or_404`) is an `Except` error value.
-/

/-- `storefront.models.Product`: the fields the checkout core reads.
`price` is a `DecimalField(max_digits=10, decimal_places=2)`, embedded as `ℚ`. -/
structure Product where
  id : Nat
  name : String
  price : ℚ
  is_active : Bool
  is_featured : Bool
deriving DecidableEq, Repr

/-- The session cart: Python dict from `str(product.id)` to quantity, keyed
here by the product id itself (see the modelling note above). -/
abbrev Cart := List (Nat × Int)

/-- Python `cart.get(str(k), d)`. -/
def cartGet (cart : Cart) (k : Nat) (d : Int) : Int :=
  match cart.find? (fun e => e.1 == k) with
  | some e => e.2
  | none => d

/-- Python `[int(product_id) for product_id in cart.keys()]` (dict key order). -/
def cartKeys (cart : Cart) : List Nat :=
  cart.map (fun e => e.1)

/-- Python dict assignment `cart[k] = v`: overwrite in place if the key is
present, else append at the end (dict insertion order). -/
def cartSet : Cart → Nat → Int → Cart
  | [], k, v => [(k, v)]
  | e :: rest, k, v =>
      if e.1 = k then (k, v) :: rest else e :: cartSet rest k v

/-- The `pending_online_payment` session record written by `checkout`
(views.py lines 346-353).  `amount` is stored as `str(total)` and read back
with `Decimal(...)`; the embedding keeps the exact decimal value. -/
structure PendingPayment where
  customer_name : String
  customer_email : String
  customer_address : String
  amount : ℚ
  razorpay_order_id : String
  username : String
deriving DecidableEq, Repr

/-- The slice of the Django session the checkout core touches: the `cart` key
and the `pending_online_payment` key.  `pending = none` models both an absent
key and the falsy `{}` the success path writes (the code only ever tests
`if not pending`). -/
structure Session where
  cart : Cart
  pending : Option PendingPayment
deriving DecidableEq, Repr

/-- The authenticated request user: the fields `checkout`/`payment_verify` read. -/
structure User where
  username : String
  full_name : String
  email : String
deriving DecidableEq, Repr

/-- Python `a or b` on strings: `b` when `a` is empty (falsy), else `a`. -/
def pyOr (a b : String) : String :=
  if a = "" then b else a

/-- `line_total = product.price * quantity` accumulated by `_build_cart_items`. -/
structure CartItem where
  product : Product
  quantity : Int
  line_total : ℚ
deriving DecidableEq, Repr

/-- `Product.objects.filter(id__in=ids, is_active=True)`: the catalog rows that
are active and whose id occurs in `ids`. -/
def filter_active (catalog : List Product) (ids : List Nat) : List Product :=
  catalog.filter (fun p => p.is_active && ids.contains p.id)

/-- `storefront.views._build_cart_items` (views.py lines 43-65): empty cart
short-circuits to `([], Decimal("0.00"))`; otherwise one batch lookup of the
active products with id among the cart keys, and for each returned product an
item `{product, quantity, line_total}` with `quantity = cart.get(str(id), 0)`,
the total being the running sum of the line totals. -/
def build_cart_items (catalog : List Product) (cart : Cart) : List CartItem × ℚ :=
  if cart.isEmpty then ([], 0)
  else
    let products := filter_active catalog (cartKeys cart)
    let items := products.map (fun p =>
      let q := cartGet cart p.id 0
      { product := p, quantity := q, line_total := p.price * (q : ℚ) : CartItem })
    (items, (items.map CartItem.line_total).sum)

/-- `get_object_or_404(Product, id=product_id, is_active=True)`: the first (and
with primary-key uniqueness, only) active catalog row with the given id. -/
def get_object_active (catalog : List Product) (pid : Nat) : Option Product :=
  catalog.find? (fun p => p.id == pid && p.is_active)

/-- Python `int(s)` on a string: optional sign followed by at least one digit,
else a `ValueError` (`none`).  Whitespace/underscore tolerance of CPython is
not exercised by the program and is not modelled. -/
def parseDigitsAux : List Char → Nat → Option Nat
  | [], acc => some acc
  | c :: cs, acc =>
      if c.isDigit then parseDigitsAux cs (10 * acc + (c.toNat - 48)) else none

/-- Python `int(s)` (see `parseDigitsAux`). -/
def pyIntOfStr (s : String) : Option Int :=
  match s.data with
  | [] => none
  | '-' :: cs => if cs.isEmpty then none else (parseDigitsAux cs 0).map (fun n => -(n : Int))
  | '+' :: cs => if cs.isEmpty then none else (parseDigitsAux cs 0).map (fun n => (n : Int))
  | cs => (parseDigitsAux cs 0).map (fun n => (n : Int))

/-- The body of `add_to_cart` after the `int(...)` conversion (views.py lines
240-246): coerce the quantity to at least 1, then
`cart[key] = cart.get(key, 0) + quantity`. -/
def add_to_cart_int (cart : Cart) (pid : Nat) (q : Int) : Cart :=
  let q := if q < 1 then 1 else q
  cartSet cart pid (cartGet cart pid 0 + q)

/-- How `add_to_cart` can fail: `get_object_or_404` raising Http404, or
`int(request.POST.get("quantity", 1))` raising an uncaught `ValueError`. -/
inductive AddError where
  | notFound
  | valueError
deriving DecidableEq, Repr

/-- `storefront.views.add_to_cart` (views.py lines 236-249): resolve the
product (404 if absent/inactive), convert the submitted quantity with
`int(...)` (default `1` when the field is missing; uncaught `ValueError` on a
non-numeric string), then increment the cart entry.  Returns the new cart. -/
def add_to_cart (catalog : List Product) (cart : Cart) (pid : Nat)
    (qtyRaw : Option String) : Except AddError Cart :=
  match get_object_active catalog pid with
  | none => .error .notFound
  | some _ =>
    match qtyRaw with
    | none => .ok (add_to_cart_int cart pid 1)
    | some s =>
      match pyIntOfStr s with
      | none => .error .valueError
      | some q => .ok (add_to_cart_int cart pid q)

/-- Truncation toward zero: Python `int(...)` applied to an exact decimal. -/
def truncQ (q : ℚ) : ℤ :=
  if 0 ≤ q then ⌊q⌋ else -⌊-q⌋

/-- `amount_subunits = int(total * 100)` (views.py line 332). -/
def amount_subunits (total : ℚ) : ℤ :=
  truncQ (total * 100)

/-- The POST form data `checkout` reads (absent field = `none`). -/
structure CheckoutPost where
  name : Option String
  email : Option String
  address : Option String
  payment_method : Option String
deriving DecidableEq, Repr

/-- What the POST branch of `checkout` responds with. -/
inductive CheckoutResult where
  | redirectProducts (warning : String)
  | redirectCheckout (error : String)
  | renderSuccess (customer_name : String) (total : ℚ) (payment_method_label : String)
  | renderOnlinePayment (order_id : String) (amountSubunits : ℤ) (total : ℚ)
deriving DecidableEq, Repr

/-- `true` exactly on the `checkout_success.html` render. -/
def CheckoutResult.isSuccess : CheckoutResult → Bool
  | .renderSuccess _ _ _ => true
  | _ => false

/-- The payment-method label shown on a `checkout_success.html` render. -/
def CheckoutResult.successLabel : CheckoutResult → Option String
  | .renderSuccess _ _ label => some label
  | _ => none

/-- `true` exactly on the error `redirect("checkout")` responses. -/
def CheckoutResult.isRedirectCheckout : CheckoutResult → Bool
  | .redirectCheckout _ => true
  | _ => false

/-- All effects of one POST to `checkout`: the new session, the response, how
many times `_send_order_notification` was called, and the address written to
the profile (`none` when the submitted address was empty). -/
structure CheckoutEffect where
  session : Session
  result : CheckoutResult
  notifications : Nat
  profile_address_write : Option String
deriving DecidableEq, Repr

/-- The POST branch of `storefront.views.checkout` (views.py lines 279-370).
External inputs made explicit: `gatewayConfigured` is whether
`_get_razorpay_client()` returned a client, `remote_order_id` is the id the
gateway returns from `client.order.create` on the online path. -/
def checkout_post (catalog : List Product) (user : User) (gatewayConfigured : Bool)
    (remote_order_id : String) (s : Session) (post : CheckoutPost) : CheckoutEffect :=
  let priced := build_cart_items catalog s.cart
  if priced.1.isEmpty then
    { session := s, result := .redirectProducts "Your cart is empty.",
      notifications := 0, profile_address_write := none }
  else
    let total := priced.2
    let customer_name :=
      pyOr ((post.name.getD (pyOr user.full_name user.username)).trim) user.username
    let customer_email := (post.email.getD user.email).trim
    let customer_address := (post.address.getD "").trim
    let payment_method := post.payment_method.getD "cod"
    let addrWrite := if customer_address = "" then none else some customer_address
    if payment_method ≠ "cod" ∧ payment_method ≠ "online" then
      { session := s, result := .redirectCheckout "Please select a valid payment method.",
        notifications := 0, profile_address_write := addrWrite }
    else if payment_method = "cod" then
      { session := { s with cart := [] },
        result := .renderSuccess customer_name total "Cash on Delivery",
        notifications := 1, profile_address_write := addrWrite }
    else if ¬gatewayConfigured then
      { session := s,
        result := .redirectCheckout
          "Online payment is not configured yet. Add Razorpay keys in settings/env.",
        notifications := 0, profile_address_write := addrWrite }
    else
      let pendingRec : PendingPayment :=
        { customer_name := customer_name, customer_email := customer_email,
          customer_address := customer_address, amount := total,
          razorpay_order_id := remote_order_id, username := user.username }
      { session := { s with pending := some pendingRec },
        result := .renderOnlinePayment remote_order_id (amount_subunits total) total,
        notifications := 0, profile_address_write := addrWrite }

/-- The POST form data `payment_verify` reads (each field defaults to `""`). -/
structure VerifyPost where
  razorpay_payment_id : String
  razorpay_order_id : String
  razorpay_signature : String
deriving DecidableEq, Repr

/-- What `payment_verify` responds with. -/
inductive VerifyResult where
  | redirectCheckout (error : String)
  | renderFailed (reason : String)
  | renderSuccess (customer_name : String) (total : ℚ) (payment_id : String)
deriving DecidableEq, Repr

/-- `true` exactly on the `payment_failed.html` render. -/
def VerifyResult.isFailed : VerifyResult → Bool
  | .renderFailed _ => true
  | _ => false

/-- `true` exactly on the `checkout_success.html` render. -/
def VerifyResult.isSuccess : VerifyResult → Bool
  | .renderSuccess _ _ _ => true
  | _ => false

/-- `true` exactly on the error `redirect("checkout")` responses. -/
def VerifyResult.isRedirectCheckout : VerifyResult → Bool
  | .redirectCheckout _ => true
  | _ => false

/-- All effects of one POST to `payment_verify`. -/
structure VerifyEffect where
  session : Session
  result : VerifyResult
  notifications : Nat
deriving DecidableEq, Repr

/-- `storefront.views.payment_verify` (views.py lines 387-449).  `sigOk` is the
verdict of `client.utility.verify_payment_signature` (`false` = it raised
`SignatureVerificationError`).  Order of checks as in the source: gateway
configured, pending record present (truthy), submitted order id matches the
stored one, signature; on full success the notification is sent and both the
cart and the pending record are cleared. -/
def payment_verify (gatewayConfigured : Bool) (sigOk : Bool) (user : User)
    (s : Session) (post : VerifyPost) : VerifyEffect :=
  if ¬gatewayConfigured then
    { session := s, result := .redirectCheckout "Online payment is not configured.",
      notifications := 0 }
  else
    match s.pending with
    | none =>
      { session := s, result := .redirectCheckout "No pending online payment found.",
        notifications := 0 }
    | some pending =>
      if post.razorpay_order_id ≠ pending.razorpay_order_id then
        { session := s,
          result := .redirectCheckout "Order mismatch detected. Please try checkout again.",
          notifications := 0 }
      else if ¬sigOk then
        { session := s,
          result := .renderFailed "Payment signature verification failed.",
          notifications := 0 }
      else
        { session := { cart := [], pending := none },
          result := .renderSuccess (pyOr pending.customer_name user.username)
            pending.amount post.razorpay_payment_id,
          notifications := 1 }

/-! ### Concrete inputs used by witnesses and counterexamples -/

/-- Product 3 of the spec's example scenario: price 100.00, active. -/
def exProduct3 : Product :=
  { id := 3, name := "Widget", price := 100, is_active := true, is_featured := false }

/-- Product 5 of the spec's example scenario: price 50.00, inactive. -/
def exProduct5 : Product :=
  { id := 5, name := "Gadget", price := 50, is_active := false, is_featured := true }

/-- A two-row catalog. -/
def exCatalog : List Product := [exProduct3, exProduct5]

/-- The spec's example cart `{"3": 2, "5": 1}`. -/
def exCart : Cart := [(3, 2), (5, 1)]

/-- A concrete authenticated user. -/
def exUser : User := { username := "alice", full_name := "Alice A", email := "alice@example.com" }

/-- A concrete pending online payment stored in the session. -/
def exPending : PendingPayment :=
  { customer_name := "Alice A", customer_email := "alice@example.com",
    customer_address := "1 Main St", amount := 200, razorpay_order_id := "order_1",
    username := "alice" }

/-- A session with a non-empty cart and a pending payment for `order_1`. -/
def exSession : Session := { cart := exCart, pending := some exPending }

/-- A verification callback whose order id matches the stored record. -/
def exVerifyPost : VerifyPost :=
  { razorpay_payment_id := "pay_7", razorpay_order_id := "order_1", razorpay_signature := "sig" }

/-- A verification callback referencing a different remote order. -/
def exMismatchPost : VerifyPost :=
  { razorpay_payment_id := "pay_7", razorpay_order_id := "order_2", razorpay_signature := "sig" }

/-- A checkout form choosing cash on delivery. -/
def exCodPost : CheckoutPost :=
  { name := some "Alice A", email := some "alice@example.com",
    address := some "1 Main St", payment_method := some "cod" }

/-- A checkout form choosing online payment. -/
def exOnlinePost : CheckoutPost :=
  { name := some "Alice A", email := some "alice@example.com",
    address := some "1 Main St", payment_method := some "online" }

/-- A checkout form that omits the payment_method field. -/
def exNoMethodPost : CheckoutPost :=
  { name := some "Alice A", email := some "alice@example.com",
    address := some "1 Main St", payment_method := none }

/-! ### Claim theorems -/

/-- Claim C7: on the online checkout path the amount sent to the gateway is
`int(total * 100)`; for every total representable with two decimal places
(`total = c/100`) this truncation agrees with rounding, both giving `c` minor
units. -/
theorem amount_subunits_trunc_eq_round (c : ℤ) :
    amount_subunits ((c : ℚ) / 100) = round (((c : ℚ) / 100) * 100) ∧
    amount_subunits ((c : ℚ) / 100) = c := by
  have h : ((c : ℚ) / 100) * 100 = (c : ℚ) := div_mul_cancel₀ _ (by norm_num)
  have htr : truncQ ((c : ℚ)) = c := by
    unfold truncQ
    by_cases hc : (0 : ℚ) ≤ (c : ℚ)
    · simp [hc]
    · have hneg : -(c : ℚ) = ((-c : ℤ) : ℚ) := by push_cast; ring
      simp only [hc, if_false, hneg, Int.floor_intCast, neg_neg]
  refine ⟨?_, ?_⟩
  · rw [amount_subunits, h, htr, round_intCast]
  · rw [amount_subunits, h, htr]

/-- Claim C2: with a pending payment whose stored remote order id equals the
submitted one, a failed signature verification renders the payment-failed view
and leaves the whole session (in particular the pending record) unchanged with
no notification, while a successful verification clears both the cart and the
pending record, renders the success view, and makes exactly one notification
attempt. -/
theorem payment_verify_signature_paths (user : User) (s : Session)
    (p : PendingPayment) (post : VerifyPost)
    (hp : s.pending = some p)
    (hid : post.razorpay_order_id = p.razorpay_order_id) :
    (payment_verify true false user s post).session = s ∧
    ((payment_verify true false user s post).result).isFailed = true ∧
    (payment_verify true false user s post).notifications = 0 ∧
    (payment_verify true true user s post).session.cart = [] ∧
    (payment_verify true true user s post).session.pending = none ∧
    ((payment_verify true true user s post).result).isSuccess = true ∧
    (payment_verify true true user s post).notifications = 1 := by
  simp [payment_verify, hp, hid, VerifyResult.isFailed, VerifyResult.isSuccess]

/-- Witness for C2 at a concrete session and callback. -/
theorem payment_verify_signature_paths_witness :
    (exSession.pending = some exPending ∧
      exVerifyPost.razorpay_order_id = exPending.razorpay_order_id) ∧
    ((payment_verify true false exUser exSession exVerifyPost).session = exSession ∧
      ((payment_verify true false exUser exSession exVerifyPost).result).isFailed = true ∧
      (payment_verify true false exUser exSession exVerifyPost).notifications = 0 ∧
      (payment_verify true true exUser exSession exVerifyPost).session.cart = [] ∧
      (payment_verify true true exUser exSession exVerifyPost).session.pending = none ∧
      ((payment_verify true true exUser exSession exVerifyPost).result).isSuccess = true ∧
      (payment_verify true true exUser exSession exVerifyPost).notifications = 1) :=
  ⟨⟨rfl, rfl⟩, payment_verify_signature_paths exUser exSession exPending exVerifyPost rfl rfl⟩

/-- Claim C3: with a pending payment present, a verification callback whose
order id differs from the stored remote order id leaves the session (cart and
pending record) unchanged, sends no notification, and redirects with an error
message — whatever the gateway configuration and signature verdict. -/
theorem payment_verify_order_mismatch (g sigOk : Bool) (user : User) (s : Session)
    (p : PendingPayment) (post : VerifyPost)
    (hp : s.pending = some p)
    (hid : post.razorpay_order_id ≠ p.razorpay_order_id) :
    (payment_verify g sigOk user s post).session = s ∧
    (payment_verify g sigOk user s post).notifications = 0 ∧
    ((payment_verify g sigOk user s post).result).isRedirectCheckout = true := by
  cases g with
  | false => simp [payment_verify, VerifyResult.isRedirectCheckout]
  | true => simp [payment_verify, hp, hid, VerifyResult.isRedirectCheckout]

/-- Witness for C3 at a concrete session and mismatching callback. -/
theorem payment_verify_order_mismatch_witness :
    (exSession.pending = some exPending ∧
      exMismatchPost.razorpay_order_id ≠ exPending.razorpay_order_id) ∧
    ((payment_verify true true exUser exSession exMismatchPost).session = exSession ∧
      (payment_verify true true exUser exSession exMismatchPost).notifications = 0 ∧
      ((payment_verify true true exUser exSession exMismatchPost).result).isRedirectCheckout = true) :=
  ⟨⟨rfl, by decide⟩,
    payment_verify_order_mismatch true true exUser exSession exPending exMismatchPost rfl (by decide)⟩

/-- Claim C4 counterexample: on the order-mismatch path the pending record is
NOT cleared — with the stored order `order_1` and a callback for `order_2`
(gateway configured, signature verdict irrelevant), the record is still in the
session afterwards, contradicting "consumed and cleared ... on the
order-mismatch failure path". -/
theorem payment_verify_mismatch_keeps_pending_cex :
    (payment_verify true true exUser exSession exMismatchPost).session.pending = some exPending ∧
    ((payment_verify true true exUser exSession exMismatchPost).result).isRedirectCheckout = true := by
  decide

/-- Claim C4 (amended): the pending record is cleared at verification time only
on the full success path — it is cleared exactly when the gateway is
configured, the submitted order id matches the stored one, and the signature
verifies; both the order-mismatch and the signature-failure paths leave it in
place. -/
theorem payment_verify_pending_cleared_iff (g sigOk : Bool) (user : User)
    (s : Session) (p : PendingPayment) (post : VerifyPost)
    (hp : s.pending = some p) :
    (payment_verify g sigOk user s post).session.pending = none ↔
      (g = true ∧ sigOk = true ∧ post.razorpay_order_id = p.razorpay_order_id) := by
  cases g with
  | false => simp [payment_verify, hp]
  | true =>
    by_cases hid : post.razorpay_order_id = p.razorpay_order_id
    · cases sigOk with
      | false => simp [payment_verify, hp, hid]
      | true => simp [payment_verify, hp, hid]
    · simp [payment_verify, hp, hid]

/-- Witness for the amended C4 at a concrete session and matching callback. -/
theorem payment_verify_pending_cleared_iff_witness :
    exSession.pending = some exPending ∧
    ((payment_verify true true exUser exSession exVerifyPost).session.pending = none ↔
      (true = true ∧ true = true ∧
        exVerifyPost.razorpay_order_id = exPending.razorpay_order_id)) :=
  ⟨rfl, payment_verify_pending_cleared_iff true true exUser exSession exPending exVerifyPost rfl⟩

/-- Claim C9: `add_to_cart` is not total over form data — with a resolvable
active product, a POST whose quantity field is the non-numeric string "abc"
ends in an uncaught `ValueError` from `int(...)` (before the coerce-to-at-
least-1 guard), not in a default quantity or a user-facing error. -/
theorem add_to_cart_nonnumeric_value_error (catalog : List Product) (cart : Cart)
    (pid : Nat) (prod : Product)
    (hprod : get_object_active catalog pid = some prod) :
    add_to_cart catalog cart pid (some "abc") = .error .valueError := by
  simp [add_to_cart, hprod]
  rfl

/-- Witness for C9 at the concrete catalog: quantity "abc" for product 3. -/
theorem add_to_cart_nonnumeric_value_error_witness :
    get_object_active exCatalog 3 = some exProduct3 ∧
    add_to_cart exCatalog exCart 3 (some "abc") = .error .valueError :=
  ⟨by decide, add_to_cart_nonnumeric_value_error exCatalog exCart 3 exProduct3 (by decide)⟩

/-! ### Helper lemmas about the cart dictionary -/

/-- Reading the head key of a cons. -/
theorem cartGet_cons_self (e : Nat × Int) (rest : Cart) (d : Int) :
    cartGet (e :: rest) e.1 d = e.2 := by
  simp [cartGet, List.find?_cons_of_pos]

/-- Reading past a head entry with a different key. -/
theorem cartGet_cons_of_ne (e : Nat × Int) (rest : Cart) (k : Nat) (d : Int)
    (h : e.1 ≠ k) :
    cartGet (e :: rest) k d = cartGet rest k d := by
  simp only [cartGet]
  rw [List.find?_cons_of_neg]
  simpa using h

/-- Writing then reading the same key. -/
theorem cartGet_cartSet_self (cart : Cart) (k : Nat) (v : Int) :
    cartGet (cartSet cart k v) k 0 = v := by
  induction cart with
  | nil => simp [cartSet, cartGet, List.find?]
  | cons e rest ih =>
    by_cases h : e.1 = k
    · simp [cartSet, h, cartGet, List.find?]
    · rw [cartSet, if_neg h, cartGet_cons_of_ne e _ k 0 h]
      exact ih

/-- The net effect of the post-parse body of `add_to_cart` on the touched key:
the prior quantity plus the coerced increment. -/
theorem add_to_cart_int_get (cart : Cart) (pid : Nat) (q : Int) :
    cartGet (add_to_cart_int cart pid q) pid 0
      = cartGet cart pid 0 + (if q < 1 then 1 else q) := by
  simp [add_to_cart_int, cartGet_cartSet_self]

/-- Claim C6: adding an active product with a submitted numeric quantity `q`
stores the prior quantity plus `q` when `q ≥ 1` and plus `1` when `q` is
non-positive (a missing field likewise adds `1`); hence two successive adds of
the same product with quantities `q1, q2 ≥ 1` store the prior quantity plus
`q1 + q2` — increments accumulate rather than overwrite. -/
theorem add_to_cart_quantity_semantics (catalog : List Product) (cart : Cart)
    (pid : Nat) (q q1 q2 : Int) (prod : Product) (s : String)
    (hprod : get_object_active catalog pid = some prod)
    (hs : pyIntOfStr s = some q)
    (hq1 : 1 ≤ q1) (hq2 : 1 ≤ q2) :
    add_to_cart catalog cart pid (some s) = .ok (add_to_cart_int cart pid q) ∧
    add_to_cart catalog cart pid none = .ok (add_to_cart_int cart pid 1) ∧
    (1 ≤ q → cartGet (add_to_cart_int cart pid q) pid 0 = cartGet cart pid 0 + q) ∧
    (q < 1 → cartGet (add_to_cart_int cart pid q) pid 0 = cartGet cart pid 0 + 1) ∧
    cartGet (add_to_cart_int (add_to_cart_int cart pid q1) pid q2) pid 0
      = cartGet cart pid 0 + q1 + q2 := by
  refine ⟨by simp [add_to_cart, hprod, hs], by simp [add_to_cart, hprod], ?_, ?_, ?_⟩
  · intro hq
    rw [add_to_cart_int_get, if_neg (not_lt.mpr hq)]
  · intro hq
    rw [add_to_cart_int_get, if_pos hq]
  · rw [add_to_cart_int_get, add_to_cart_int_get,
      if_neg (not_lt.mpr hq1), if_neg (not_lt.mpr hq2), add_assoc]

/-- Witness for C6: product 3, prior quantity 2 in the cart, submitted
quantity "4", and the double-add with quantities 4 and 5. -/
theorem add_to_cart_quantity_semantics_witness :
    (get_object_active exCatalog 3 = some exProduct3 ∧
      pyIntOfStr "4" = some 4 ∧ (1 : ℤ) ≤ 4 ∧ (1 : ℤ) ≤ 5) ∧
    (add_to_cart exCatalog exCart 3 (some "4") = .ok (add_to_cart_int exCart 3 4) ∧
      add_to_cart exCatalog exCart 3 none = .ok (add_to_cart_int exCart 3 1) ∧
      ((1 : ℤ) ≤ 4 → cartGet (add_to_cart_int exCart 3 4) 3 0 = cartGet exCart 3 0 + 4) ∧
      ((4 : ℤ) < 1 → cartGet (add_to_cart_int exCart 3 4) 3 0 = cartGet exCart 3 0 + 1) ∧
      cartGet (add_to_cart_int (add_to_cart_int exCart 3 4) 3 5) 3 0
        = cartGet exCart 3 0 + 4 + 5) :=
  ⟨⟨by decide, by decide, by decide, by decide⟩,
    add_to_cart_quantity_semantics exCatalog exCart 3 4 4 5 exProduct3 "4"
      (by decide) (by decide) (by decide) (by decide)⟩

/-- Claim C5: on a non-empty priced cart, a checkout POST with payment method
"cod" clears the session cart and renders the success view, while an "online"
checkout (gateway configured) leaves the cart unchanged; and a verification
request changes the cart only by clearing it on its full success path — every
other verification outcome leaves the cart as it was. -/
theorem checkout_cart_clearing (catalog : List Product) (user : User)
    (oid : String) (s : Session) (post : CheckoutPost)
    (g g2 sigOk : Bool) (t : Session) (vp : VerifyPost)
    (hne : ((build_cart_items catalog s.cart).1).isEmpty = false) :
    (post.payment_method = some "cod" →
      (checkout_post catalog user g oid s post).session.cart = [] ∧
      ((checkout_post catalog user g oid s post).result).isSuccess = true) ∧
    (post.payment_method = some "online" →
      (checkout_post catalog user true oid s post).session.cart = s.cart) ∧
    ((payment_verify g2 sigOk user t vp).session.cart = t.cart ∨
      ((payment_verify g2 sigOk user t vp).session.cart = [] ∧
        ((payment_verify g2 sigOk user t vp).result).isSuccess = true)) := by
  refine ⟨?_, ?_, ?_⟩
  · intro hpm
    simp [checkout_post, hne, hpm, CheckoutResult.isSuccess]
  · intro hpm
    simp [checkout_post, hne, hpm]
  · cases g2 with
    | false => left; simp [payment_verify]
    | true =>
      cases ht : t.pending with
      | none => left; simp [payment_verify, ht]
      | some p =>
        by_cases hid : vp.razorpay_order_id = p.razorpay_order_id
        · cases sigOk with
          | false => left; simp [payment_verify, ht, hid]
          | true => right; simp [payment_verify, ht, hid, VerifyResult.isSuccess]
        · left; simp [payment_verify, ht, hid]

/-- Witness for C5 at the concrete catalog, session and posts. -/
theorem checkout_cart_clearing_witness :
    ((build_cart_items exCatalog exSession.cart).1).isEmpty = false ∧
    ((exCodPost.payment_method = some "cod" →
      (checkout_post exCatalog exUser true "order_9" exSession exCodPost).session.cart = [] ∧
      ((checkout_post exCatalog exUser true "order_9" exSession exCodPost).result).isSuccess = true) ∧
    (exCodPost.payment_method = some "online" →
      (checkout_post exCatalog exUser true "order_9" exSession exCodPost).session.cart = exSession.cart) ∧
    ((payment_verify true true exUser exSession exVerifyPost).session.cart = exSession.cart ∨
      ((payment_verify true true exUser exSession exVerifyPost).session.cart = [] ∧
        ((payment_verify true true exUser exSession exVerifyPost).result).isSuccess = true))) :=
  ⟨by decide,
    checkout_cart_clearing exCatalog exUser "order_9" exSession exCodPost
      true true true exSession exVerifyPost (by decide)⟩

/-- Claim C8: a checkout POST that omits the payment_method field entirely is
handled identically to one that submits "cod" — it finalizes a cash-on-delivery
order (success view with the COD label, cart cleared, pending untouched) —
while an explicitly submitted value outside {cod, online} is rejected with an
error redirect and no session change. -/
theorem checkout_missing_method_defaults_cod (catalog : List Product)
    (user : User) (g : Bool) (oid : String) (s : Session) (post : CheckoutPost)
    (v : String)
    (hne : ((build_cart_items catalog s.cart).1).isEmpty = false)
    (hpm : post.payment_method = none)
    (hv1 : v ≠ "cod") (hv2 : v ≠ "online") :
    checkout_post catalog user g oid s post
      = checkout_post catalog user g oid s { post with payment_method := some "cod" } ∧
    ((checkout_post catalog user g oid s post).result).isSuccess = true ∧
    ((checkout_post catalog user g oid s post).result).successLabel
      = some "Cash on Delivery" ∧
    (checkout_post catalog user g oid s post).session.cart = [] ∧
    (checkout_post catalog user g oid s post).session.pending = s.pending ∧
    ((checkout_post catalog user g oid s
        { post with payment_method := some v }).result).isRedirectCheckout = true ∧
    (checkout_post catalog user g oid s { post with payment_method := some v }).session = s ∧
    (checkout_post catalog user g oid s { post with payment_method := some v }).notifications = 0 := by
  refine ⟨?_, ?_, ?_, ?_, ?_, ?_, ?_, ?_⟩
  · simp [checkout_post, hne, hpm]
  · simp [checkout_post, hne, hpm, CheckoutResult.isSuccess]
  · simp [checkout_post, hne, hpm, CheckoutResult.successLabel]
  · simp [checkout_post, hne, hpm]
  · simp [checkout_post, hne, hpm]
  · simp [checkout_post, hne, hv1, hv2, CheckoutResult.isRedirectCheckout]
  · simp [checkout_post, hne, hv1, hv2]
  · simp [checkout_post, hne, hv1, hv2]

/-- Witness for C8: the form with no payment_method field, and the rejected
value "paypal". -/
theorem checkout_missing_method_defaults_cod_witness :
    (((build_cart_items exCatalog exSession.cart).1).isEmpty = false ∧
      exNoMethodPost.payment_method = none ∧
      ("paypal" : String) ≠ "cod" ∧ ("paypal" : String) ≠ "online") ∧
    (checkout_post exCatalog exUser true "order_9" exSession exNoMethodPost
      = checkout_post exCatalog exUser true "order_9" exSession
          { exNoMethodPost with payment_method := some "cod" } ∧
    ((checkout_post exCatalog exUser true "order_9" exSession exNoMethodPost).result).isSuccess = true ∧
    ((checkout_post exCatalog exUser true "order_9" exSession exNoMethodPost).result).successLabel
      = some "Cash on Delivery" ∧
    (checkout_post exCatalog exUser true "order_9" exSession exNoMethodPost).session.cart = [] ∧
    (checkout_post exCatalog exUser true "order_9" exSession exNoMethodPost).session.pending
      = exSession.pending ∧
    ((checkout_post exCatalog exUser true "order_9" exSession
        { exNoMethodPost with payment_method := some "paypal" }).result).isRedirectCheckout = true ∧
    (checkout_post exCatalog exUser true "order_9" exSession
        { exNoMethodPost with payment_method := some "paypal" }).session = exSession ∧
    (checkout_post exCatalog exUser true "order_9" exSession
        { exNoMethodPost with payment_method := some "paypal" }).notifications = 0) :=
  ⟨⟨by decide, rfl, by decide, by decide⟩,
    checkout_missing_method_defaults_cod exCatalog exUser true "order_9" exSession
      exNoMethodPost "paypal" (by decide) rfl (by decide) (by decide)⟩

/-- Claim C10: a successful cash-on-delivery checkout clears only the cart key
of the session — a PendingPayment record left from an earlier abandoned online
attempt survives it untouched, and a later verify request against that stale
record still goes through (with the gateway configured and a matching order id
and valid signature it renders success and notifies). -/
theorem cod_checkout_preserves_pending (catalog : List Product) (user : User)
    (g : Bool) (oid : String) (s : Session) (post : CheckoutPost)
    (p : PendingPayment) (vp : VerifyPost)
    (hne : ((build_cart_items catalog s.cart).1).isEmpty = false)
    (hpm : post.payment_method = some "cod")
    (hp : s.pending = some p)
    (hvp : vp.razorpay_order_id = p.razorpay_order_id) :
    (checkout_post catalog user g oid s post).session.pending = some p ∧
    ((payment_verify true true user
        (checkout_post catalog user g oid s post).session vp).result).isSuccess = true ∧
    (payment_verify true true user
        (checkout_post catalog user g oid s post).session vp).notifications = 1 := by
  have hsess : (checkout_post catalog user g oid s post).session.pending = some p := by
    simp [checkout_post, hne, hpm, hp]
  refine ⟨hsess, ?_, ?_⟩ <;>
    simp [payment_verify, hsess, hvp, VerifyResult.isSuccess]

/-- Witness for C10 at the concrete session holding a stale pending record. -/
theorem cod_checkout_preserves_pending_witness :
    (((build_cart_items exCatalog exSession.cart).1).isEmpty = false ∧
      exCodPost.payment_method = some "cod" ∧
      exSession.pending = some exPending ∧
      exVerifyPost.razorpay_order_id = exPending.razorpay_order_id) ∧
    ((checkout_post exCatalog exUser true "order_9" exSession exCodPost).session.pending
        = some exPending ∧
      ((payment_verify true true exUser
          (checkout_post exCatalog exUser true "order_9" exSession exCodPost).session
          exVerifyPost).result).isSuccess = true ∧
      (payment_verify true true exUser
          (checkout_post exCatalog exUser true "order_9" exSession exCodPost).session
          exVerifyPost).notifications = 1) :=
  ⟨⟨by decide, rfl, rfl, rfl⟩,
    cod_checkout_preserves_pending exCatalog exUser true "order_9" exSession exCodPost
      exPending exVerifyPost (by decide) rfl rfl rfl⟩

/-! ### Claim C1: cart pricing -/

/-- Formalised from the spec's words, for comparison with `build_cart_items`:
the active catalog row pricing a cart entry (`C ∩ active(K)` membership). -/
def findActive (catalog : List Product) (pid : Nat) : Option Product :=
  catalog.find? (fun p => p.is_active && p.id == pid)

/-- Formalised from the spec's words: "the sum of `price(p) * quantity` over
products p in C ∩ active(K); products absent from active(K) contribute zero",
as a sum over the cart's entries. -/
def specCartTotal (catalog : List Product) (cart : Cart) : ℚ :=
  (cart.map (fun e =>
    match findActive catalog e.1 with
    | some p => p.price * (e.2 : ℚ)
    | none => 0)).sum

/-- Splitting the batch-lookup sum at one cart key not among the others. -/
theorem sum_filter_key_split (f : Product → ℚ) (k : Nat) (ks : List Nat)
    (hk : k ∉ ks) :
    ∀ catalog : List Product,
    ((filter_active catalog (k :: ks)).map f).sum
      = ((catalog.filter (fun p => p.is_active && p.id == k)).map f).sum
        + ((filter_active catalog ks).map f).sum := by
  intro catalog
  induction catalog with
  | nil => simp [filter_active]
  | cons p rest ih =>
    simp only [filter_active, List.filter_cons, List.contains_cons] at ih ⊢
    by_cases ha : p.is_active = true
    · by_cases hpk : p.id = k
      · subst hpk
        simp [ha, hk] at ih ⊢
        rw [ih]; ring
      · by_cases hks : p.id ∈ ks
        · simp [ha, hpk, hks] at ih ⊢
          rw [ih]; ring
        · simp [ha, hpk, hks] at ih ⊢
          exact ih
    · simp [ha] at ih ⊢
      exact ih

/-- With primary-key-unique catalog ids, the sum over the rows matching one
key is the contribution of the (at most one) active row with that key. -/
theorem sum_filter_single_key (f : Product → ℚ) (k : Nat) :
    ∀ catalog : List Product, (catalog.map Product.id).Nodup →
    ((catalog.filter (fun p => p.is_active && p.id == k)).map f).sum
      = (match findActive catalog k with
         | some p => f p
         | none => 0) := by
  intro catalog
  induction catalog with
  | nil => intro _; simp [findActive]
  | cons p rest ih =>
    intro hnd
    rw [List.map_cons, List.nodup_cons] at hnd
    obtain ⟨hp, hnd'⟩ := hnd
    by_cases ha : p.is_active = true
    · by_cases hpk : p.id = k
      · have hrest : rest.filter (fun q => q.is_active && q.id == k) = [] := by
          rw [List.filter_eq_nil_iff]
          intro q hq
          simp only [Bool.and_eq_true, beq_iff_eq, not_and]
          intro _ hqk
          have hmem : q.id ∈ List.map Product.id rest := List.mem_map_of_mem Product.id hq
          rw [hqk, ← hpk] at hmem
          exact absurd hmem hp
        have hfa : findActive (p :: rest) k = some p :=
          List.find?_cons_of_pos rest (by simp [ha, hpk])
        rw [hfa, List.filter_cons]
        simp [ha, hpk, hrest]
      · have hfa : findActive (p :: rest) k = findActive rest k :=
          List.find?_cons_of_neg rest (by simp [hpk])
        rw [hfa, List.filter_cons]
        simp only [ha, Bool.true_and]
        rw [if_neg (by simp [hpk])]
        exact ih hnd'
    · have hfa : findActive (p :: rest) k = findActive rest k :=
        List.find?_cons_of_neg rest (by simp [ha])
      rw [hfa, List.filter_cons]
      rw [if_neg (by simp [ha])]
      exact ih hnd'

/-- The loop of `_build_cart_items` (a sum over the batch-lookup result, each
product priced at its cart quantity) equals the spec's sum over cart entries,
given unique catalog ids and unique cart keys. -/
theorem code_total_eq_spec (catalog : List Product)
    (hnd : (catalog.map Product.id).Nodup) :
    ∀ cart : Cart, (cartKeys cart).Nodup →
    ((filter_active catalog (cartKeys cart)).map
        (fun p => p.price * ((cartGet cart p.id 0 : ℤ) : ℚ))).sum
      = specCartTotal catalog cart := by
  intro cart
  induction cart with
  | nil =>
    intro _
    simp [filter_active, specCartTotal, cartKeys]
  | cons e rest ih =>
    intro hnd2
    have hkeys : cartKeys (e :: rest) = e.1 :: cartKeys rest := rfl
    rw [hkeys] at hnd2 ⊢
    rw [List.nodup_cons] at hnd2
    obtain ⟨hk, hnd'⟩ := hnd2
    rw [sum_filter_key_split _ e.1 (cartKeys rest) hk catalog]
    have h1 : (catalog.filter (fun p => p.is_active && p.id == e.1)).map
        (fun p => p.price * ((cartGet (e :: rest) p.id 0 : ℤ) : ℚ))
        = (catalog.filter (fun p => p.is_active && p.id == e.1)).map
          (fun p => p.price * ((e.2 : ℤ) : ℚ)) := by
      apply List.map_congr_left
      intro p hp
      rw [List.mem_filter] at hp
      have hpid : p.id = e.1 := by
        have h2 := hp.2
        simp only [Bool.and_eq_true, beq_iff_eq] at h2
        exact h2.2
      rw [hpid, cartGet_cons_self]
    rw [h1, sum_filter_single_key _ e.1 catalog hnd]
    have h2 : (filter_active catalog (cartKeys rest)).map
        (fun p => p.price * ((cartGet (e :: rest) p.id 0 : ℤ) : ℚ))
        = (filter_active catalog (cartKeys rest)).map
          (fun p => p.price * ((cartGet rest p.id 0 : ℤ) : ℚ)) := by
      apply List.map_congr_left
      intro p hp
      rw [filter_active, List.mem_filter] at hp
      have hpid : p.id ∈ cartKeys rest := by
        have h3 := hp.2
        simp only [Bool.and_eq_true, List.contains_iff_exists_mem_beq] at h3
        obtain ⟨_, ⟨a, ha, hbeq⟩⟩ := h3
        exact (beq_iff_eq.mp hbeq) ▸ ha
      have hne : e.1 ≠ p.id := fun h => hk (h ▸ hpid)
      rw [cartGet_cons_of_ne _ _ _ _ hne]
    rw [h2, ih hnd']
    simp [specCartTotal]

/-- The total returned by `_build_cart_items` as the batch-lookup sum. -/
theorem build_cart_items_snd (catalog : List Product) (cart : Cart) :
    (build_cart_items catalog cart).2
      = ((filter_active catalog (cartKeys cart)).map
          (fun p => p.price * ((cartGet cart p.id 0 : ℤ) : ℚ))).sum := by
  by_cases h : cart.isEmpty
  · have hnil : cart = [] := List.isEmpty_iff.mp h
    subst hnil
    simp [build_cart_items, filter_active, cartKeys]
  · simp only [build_cart_items, h, if_false, Bool.false_eq_true, List.map_map]
    rfl

/-- Claim C1: for every catalog (unique ids) and every cart (unique keys), the
total of `_build_cart_items` is the sum of `price * quantity` over exactly the
cart entries whose product exists and is active (entries with an inactive or
deleted product contribute zero); every returned item carries an active
catalog product keyed by the cart; and the empty cart yields `([], 0.00)`. -/
theorem build_cart_items_correct (catalog : List Product) (cart : Cart)
    (hK : (catalog.map Product.id).Nodup) (hC : (cartKeys cart).Nodup) :
    (build_cart_items catalog cart).2 = specCartTotal catalog cart ∧
    (∀ it ∈ (build_cart_items catalog cart).1,
      it.product.is_active = true ∧ it.product ∈ catalog ∧
        it.product.id ∈ cartKeys cart) ∧
    build_cart_items catalog ([] : Cart) = ([], 0) := by
  refine ⟨?_, ?_, rfl⟩
  · rw [build_cart_items_snd]
    exact code_total_eq_spec catalog hK cart hC
  · intro it hit
    by_cases h : cart.isEmpty
    · simp [build_cart_items, h] at hit
    · simp only [build_cart_items, h, if_false, Bool.false_eq_true] at hit
      simp only [List.mem_map] at hit
      obtain ⟨p, hp, hmk⟩ := hit
      rw [filter_active, List.mem_filter] at hp
      obtain ⟨hmem, hcond⟩ := hp
      simp only [Bool.and_eq_true] at hcond
      have hpid : p.id ∈ cartKeys cart := by
        have h3 := hcond.2
        simp only [List.contains_iff_exists_mem_beq] at h3
        obtain ⟨a, ha, hbeq⟩ := h3
        exact (beq_iff_eq.mp hbeq) ▸ ha
      rw [← hmk]
      exact ⟨hcond.1, hmem, hpid⟩

/-- Witness for C1 at the spec's example: catalog with product 3 (100.00,
active) and 5 (50.00, inactive), cart `{"3": 2, "5": 1}`. -/
theorem build_cart_items_correct_witness :
    ((exCatalog.map Product.id).Nodup ∧ (cartKeys exCart).Nodup) ∧
    ((build_cart_items exCatalog exCart).2 = specCartTotal exCatalog exCart ∧
      (∀ it ∈ (build_cart_items exCatalog exCart).1,
        it.product.is_active = true ∧ it.product ∈ exCatalog ∧
          it.product.id ∈ cartKeys exCart) ∧
      build_cart_items exCatalog ([] : Cart) = ([], 0)) :=
  ⟨⟨by decide, by decide⟩, build_cart_items_correct exCatalog exCart (by decide) (by decide)⟩
